import Mathlib

/-!
Verification of the metric-computation pipeline of the mickeyNPM repository
(source file: src/calculate_metrics.ts), as a shallow embedding in Lean 4.

JavaScript strings are embedded as Lean `String` (a packed `List Char`);
the JS methods used by the source (`toLowerCase`, `includes`, truthiness,
the `||` operator) are given explicit executable models below.  Numbers are
embedded as `ℚ` (all arithmetic the source performs on them is exact at the
inputs the claims quantify over).  Fallible transport queries are embedded
as `Except`/`Option` values, and undefined object fields as `Option`.
-/

/-- Model of the JavaScript `String.prototype.toLowerCase` used by the
classifier: lower-case every character (Char.toLower, as in the source the
texts are compared against ASCII phrase lists). -/
def jsToLower (s : String) : String :=
  ⟨s.data.map Char.toLower⟩

/-- Does the character list start with the given character list? -/
def startsWithSeq : List Char → List Char → Bool
  | [], _ => true
  | _ :: _, [] => false
  | a :: as, b :: bs => a == b && startsWithSeq as bs

/-- Does the haystack contain the needle as a contiguous subsequence?
Model of JavaScript `String.prototype.includes`. -/
def containsSeq : List Char → List Char → Bool
  | hay, needle =>
    startsWithSeq needle hay ||
      match hay with
      | [] => false
      | _ :: t => containsSeq t needle

/-- `hay.includes(needle)` on the string embedding. -/
def strIncludes (hay needle : String) : Bool :=
  containsSeq hay.data needle.data

/-- The compatible-license phrase list of check_license_text
(calculate_metrics.ts lines 45-54). -/
def compatibleLicenses : List String :=
  ["mit license",
   "bsd 2-clause license",
   "bsd 3-clause license",
   "apache license, version 2.0",
   "lgpl",
   "gpl",
   "mozilla public license",
   "cc0"]

/-- The permissive-grant phrase list of check_license_text (lines 61-66). -/
def permissivePhrases : List String :=
  ["permission is hereby granted, free of charge",
   "redistribute",
   "without restriction",
   "provided that the above copyright notice"]

/-- The restrictive phrase list of check_license_text (lines 71-75). -/
def incompatiblePhrases : List String :=
  ["not for use in",
   "not licensed for",
   "proprietary"]

/-- JS optional chaining plus `.includes`: on `undefined` text every
`normalizedText?.includes(phrase)` is `undefined`, which the `some`
callback treats as false. -/
def optIncludes (t : Option String) (phrase : String) : Bool :=
  match t with
  | some s => strIncludes s phrase
  | none => false

/-- check_license_text (calculate_metrics.ts lines 41-84): lower-case the
(possibly undefined) text, then accept iff it mentions a compatible
license or contains a permissive phrase, and contains no restrictive
phrase. -/
def check_license_text (licenseText : Option String) : Bool :=
  let normalizedText := licenseText.map jsToLower
  let mentionsCompatibleLicense :=
    compatibleLicenses.any fun license => optIncludes normalizedText license
  let containsPermissivePhrases :=
    permissivePhrases.any fun phrase => optIncludes normalizedText phrase
  let containsIncompatiblePhrases :=
    incompatiblePhrases.any fun phrase => optIncludes normalizedText phrase
  (mentionsCompatibleLicense || containsPermissivePhrases) &&
    !containsIncompatiblePhrases

/-- The fixed LGPL-compatible SPDX allow-list (calculate_metrics.ts
lines 11-29). -/
def lgplCompatibleSpdxIds : List String :=
  ["LGPL-2.1-only",
   "LGPL-2.1-or-later",
   "MIT",
   "BSD-3-Clause",
   "BSD-2-Clause",
   "ISC",
   "Zlib",
   "Artistic-2.0",
   "GPL-2.0-only",
   "GPL-2.0-or-later",
   "GPL-3.0-only",
   "GPL-3.0-or-later",
   "LGPL-3.0-only",
   "LGPL-3.0-or-later",
   "MPL-2.0",
   "Unlicense",
   "CC0-1.0"]

/-- The licenseInfo object of the license query response: name is
non-null when the object is present, spdxId may be null. -/
structure RepoLicenseInfo where
  name : String
  spdxId : Option String
deriving DecidableEq

/-- The license query response (calculate_metrics.ts lines 289-317):
licenseInfo may be null, and each of the two LICENSE blob lookups may be
absent (undefined text). -/
structure LicenseQueryResponse where
  licenseInfo : Option RepoLicenseInfo
  mainLicenseText : Option String
  masterLicenseText : Option String
deriving DecidableEq

/-- JS truthiness of a possibly-undefined string: true iff present and
non-empty. -/
def jsStrTruthy : Option String → Bool
  | some s => !(s == "")
  | none => false

/-- The JS `a || b` operator on possibly-undefined strings, as used for
`mainLicense?.text || masterLicense?.text`. -/
def jsOrString (a b : Option String) : Option String :=
  if jsStrTruthy a then a else b

/-- calculate_license_metric (calculate_metrics.ts lines 312-337),
restricted to the score it computes on a successful query: score 0 when
licenseInfo or its spdxId is null; else score 1 when the name is the
"Other" sentinel, the LICENSE text is truthy and check_license_text
accepts it; else (fall-through) score 1 exactly when the spdxId is in the
allow-list. -/
def calculate_license_metric (resp : LicenseQueryResponse) : ℚ :=
  let licenseText := jsOrString resp.mainLicenseText resp.masterLicenseText
  match resp.licenseInfo with
  | none => 0
  | some info =>
    match info.spdxId with
    | none => 0
    | some licenseID =>
      if info.name == "Other" && jsStrTruthy licenseText
          && check_license_text licenseText then 1
      else if lgplCompatibleSpdxIds.contains licenseID then 1
      else 0

/-- The license policy exactly as the claim words it (the spec-side
definition, for comparison with calculate_license_metric): in the
"Other"-sentinel-with-text case the score is 0 whenever the classifier
rejects the text, with no fall-through to the allow-list. -/
def license_score_claimed (resp : LicenseQueryResponse) : ℚ :=
  let licenseText := jsOrString resp.mainLicenseText resp.masterLicenseText
  match resp.licenseInfo with
  | none => 0
  | some info =>
    match info.spdxId with
    | none => 0
    | some licenseID =>
      if info.name == "Other" && jsStrTruthy licenseText then
        (if check_license_text licenseText then 1 else 0)
      else if lgplCompatibleSpdxIds.contains licenseID then 1
      else 0

/-- The counts returned by the correctness query (calculate_metrics.ts
lines 158-165): open issue count, closed issue count, open pull-request
count, release count, and commit count in the trailing 30 days. -/
structure CorrectnessCounts where
  openIssues : Nat
  closedIssues : Nat
  openPullRequests : Nat
  releases : Nat
  recentCommits : Nat
deriving DecidableEq

/-- issueRatio (line 167): closedIssues / (openIssues + closedIssues),
where the JS NaN-coalescing || 0 makes the 0/0 case yield 0. -/
def issueRatio (c : CorrectnessCounts) : ℚ :=
  if ((c.openIssues : ℚ) + (c.closedIssues : ℚ)) = 0 then 0
  else (c.closedIssues : ℚ) / ((c.openIssues : ℚ) + (c.closedIssues : ℚ))

/-- prRatio (line 169): releases / (openPullRequests + releases), with
the same || 0 handling of the 0/0 case. -/
def prRatio (c : CorrectnessCounts) : ℚ :=
  if ((c.openPullRequests : ℚ) + (c.releases : ℚ)) = 0 then 0
  else (c.releases : ℚ) / ((c.openPullRequests : ℚ) + (c.releases : ℚ))

/-- recentCommitRatio (line 171): min(recentCommits / 30, 1). -/
def recentCommitRatio (c : CorrectnessCounts) : ℚ :=
  min ((c.recentCommits : ℚ) / 30) 1

/-- Number(x.toFixed(3)) for nonnegative x: round to 3 decimal places,
ties to the larger value, as the ECMAScript toFixed specification picks
the larger candidate integer. -/
def toFixed3 (x : ℚ) : ℚ :=
  ((⌊x * 1000 + 1 / 2⌋ : ℤ) : ℚ) / 1000

/-- The correctness score on a successful query (line 173).  Note the
source writes Math.max(0, Math.min((issueRatio + prRatio +
recentCommitRatio) / 3)): Math.min applied to a single argument returns
that argument, so only the lower clamp is effective in the code. -/
def correctness_score (c : CorrectnessCounts) : ℚ :=
  toFixed3 (max 0 ((issueRatio c + prRatio c + recentCommitRatio c) / 3))

/-- The record returned by calculate_correctness_metric, with every field
optional: the success branch (line 174) populates the correctness fields,
while the catch branch (line 181) returns licenseScore/license_latency
fields instead, leaving the correctness fields undefined. -/
structure CorrectnessMetricReturn where
  correctnessScore : Option ℚ
  correctness_latency : Option ℚ
  licenseScore : Option ℚ
  license_latency : Option ℚ
deriving DecidableEq

/-- calculate_correctness_metric (lines 126-183): on a successful query
it returns the correctness score and latency; on a transport fault the
catch block returns an object whose keys are licenseScore and
license_latency (both 0), so the correctness-named fields are absent. -/
def calculate_correctness_metric (queryResult : Except Unit CorrectnessCounts)
    (latency : ℚ) : CorrectnessMetricReturn :=
  match queryResult with
  | Except.ok repo =>
      ⟨some (correctness_score repo), some latency, none, none⟩
  | Except.error _ => ⟨none, none, some 0, some 0⟩

/-- A pull-request node of the responsiveness query (interface
PullRequestNode): createdAt may be undefined (the source substitutes 0),
and closedAt / mergedAt may each be null.  Timestamps are embedded as
their getTime() millisecond values. -/
structure PullRequestNode where
  createdAt : Option ℚ
  closedAt : Option ℚ
  mergedAt : Option ℚ
deriving DecidableEq

/-- An issue node of the responsiveness query (interface IssueNode):
createdAt is always present, closedAt may be null. -/
structure IssueNode where
  createdAt : ℚ
  closedAt : Option ℚ
deriving DecidableEq

/-- An average response time: a finite number of milliseconds, or the JS
Infinity sentinel used when nothing was resolved. -/
inductive AvgTime where
  | finite : ℚ → AvgTime
  | infinite : AvgTime
deriving DecidableEq

/-- Is the average a nonnegative finite number or the infinity sentinel
(the domain the responsiveness claim quantifies over)? -/
def AvgTime.isNonneg : AvgTime → Bool
  | AvgTime.finite t => decide (0 ≤ t)
  | AvgTime.infinite => true

/-- The JS `a || b` operator on possibly-null timestamps, as used for
`pr.node.closedAt || pr.node.mergedAt`. -/
def jsOrOpt (a b : Option ℚ) : Option ℚ :=
  match a with
  | some x => some x
  | none => b

/-- The filter of the pull-request loop (line 223): a pull request counts
as resolved when closedAt or mergedAt is present. -/
def prResolved (pr : PullRequestNode) : Bool :=
  pr.closedAt.isSome || pr.mergedAt.isSome

/-- The response time accumulated per resolved pull request (lines
224-232): (closedAt || mergedAt) minus createdAt, each defaulting to 0
when undefined. -/
def prResponseTime (pr : PullRequestNode) : ℚ :=
  (jsOrOpt pr.closedAt pr.mergedAt).getD 0 - pr.createdAt.getD 0

/-- avgPrResponseTime (lines 237-238): the mean response time over
resolved pull requests, Infinity when none is resolved. -/
def avgPrResponseTime (prs : List PullRequestNode) : AvgTime :=
  let resolved := prs.filter prResolved
  if 0 < resolved.length then
    AvgTime.finite ((resolved.map prResponseTime).sum / (resolved.length : ℚ))
  else AvgTime.infinite

/-- The filter of the issue loop (line 245). -/
def issueResolved (i : IssueNode) : Bool :=
  i.closedAt.isSome

/-- The response time accumulated per resolved issue (lines 246-248). -/
def issueResponseTime (i : IssueNode) : ℚ :=
  i.closedAt.getD 0 - i.createdAt

/-- avgIssueResponseTime (lines 253-254). -/
def avgIssueResponseTime (issues : List IssueNode) : AvgTime :=
  let resolved := issues.filter issueResolved
  if 0 < resolved.length then
    AvgTime.finite ((resolved.map issueResponseTime).sum / (resolved.length : ℚ))
  else AvgTime.infinite

/-- maxAcceptableResponseTime (line 259): 7 days in milliseconds. -/
def maxAcceptableResponseTime : ℚ :=
  86400000 * 7

/-- Is an average strictly below a finite threshold?  The infinity
sentinel compares below nothing. -/
def avgBelow : AvgTime → ℚ → Bool
  | AvgTime.finite t, thr => decide (t < thr)
  | AvgTime.infinite, _ => false

/-- The thresholding of the responsiveness score (lines 257-272): 1 when
both averages are below the threshold, 0.7 when at least one of the
remaining is, else 0.3. -/
def responsiveness_threshold_score (avgPr avgIssue : AvgTime) : ℚ :=
  if avgBelow avgPr maxAcceptableResponseTime
      && avgBelow avgIssue maxAcceptableResponseTime then 1
  else if avgBelow avgPr maxAcceptableResponseTime
      || avgBelow avgIssue maxAcceptableResponseTime then 0.7
  else 0.3

/-- The responsiveness score calculate_responsiveness_metric computes on
a successful query (lines 213-277). -/
def calculate_responsiveness_metric (prs : List PullRequestNode)
    (issues : List IssueNode) : ℚ :=
  responsiveness_threshold_score (avgPrResponseTime prs)
    (avgIssueResponseTime issues)

/-- Outcome of calculate_rampup_metric (lines 99-124), embedding its
effect structure: the clone step either succeeds or throws; only after a
successful clone is fs.rm invoked (there is no try/finally around the
clone), and an rm failure is only passed to a logging callback.  result
is the returned record (rampupScore, rampup_latency), or Except.error
when the clone fault escapes the function unhandled. -/
structure RampupOutcome where
  result : Except Unit (ℚ × ℚ)
  cleanupAttempted : Bool
  cleanupErrorLogged : Bool

/-- calculate_rampup_metric as a function of whether the clone and the
cleanup each succeed: on clone success the cleanup is attempted, an rm
error is only logged, and the fixed record (score 0, latency) is
returned; on clone failure the fault propagates and the cleanup line is
never reached. -/
def calculate_rampup_metric (cloneOk : Bool) (rmOk : Bool)
    (latency : ℚ) : RampupOutcome :=
  if cloneOk then
    { result := Except.ok (0, latency),
      cleanupAttempted := true,
      cleanupErrorLogged := !rmOk }
  else
    { result := Except.error (),
      cleanupAttempted := false,
      cleanupErrorLogged := false }

/-- calculate_net_score (lines 348-360). -/
def calculate_net_score (licenseScore rampupScore correctnessScore
    responsiveMaintenanceScore : ℚ) : ℚ :=
  0.25 * licenseScore + 0.25 * rampupScore + 0.25 * correctnessScore +
    0.25 * responsiveMaintenanceScore

/-- The clamp the correctness claim describes: clamp(x, 0, 1). -/
def clamp01 (x : ℚ) : ℚ :=
  max 0 (min x 1)

theorem char_toLower_idem (c : Char) :
    Char.toLower (Char.toLower c) = Char.toLower c := by
  unfold Char.toLower
  by_cases h : c.toNat ≥ 65 ∧ c.toNat ≤ 90
  · rw [if_pos h]
    have hv : (c.toNat + 32).isValidChar := Or.inl (by omega)
    have ht : (Char.ofNat (c.toNat + 32)).toNat = c.toNat + 32 := by
      rw [Char.ofNat, dif_pos hv]
      simp [Char.ofNatAux, Char.toNat, UInt32.toNat, BitVec.toNat_ofNatLt]
    rw [if_neg]
    omega
  · rw [if_neg h, if_neg h]

theorem list_toLower_idem (l : List Char) :
    (l.map Char.toLower).map Char.toLower = l.map Char.toLower := by
  rw [List.map_map]
  exact List.map_congr_left fun c _ => char_toLower_idem c

theorem jsToLower_idem (s : String) :
    jsToLower (jsToLower s) = jsToLower s := by
  unfold jsToLower
  exact congrArg String.mk (list_toLower_idem s.data)

/-- C7: check_license_text is a pure function (identical input yields the
identical boolean), is case-insensitive (a text and its lower-cased form
classify identically), and any restrictive phrase in the (lower-cased)
text forces the result false regardless of the compatible or permissive
phrases present. -/
theorem check_license_text_pure_ci_restrictive :
    (∀ a b : Option String, a = b → check_license_text a = check_license_text b)
    ∧ (∀ s : String,
        check_license_text (some s) = check_license_text (some (jsToLower s)))
    ∧ (∀ s : String,
        (∃ p ∈ incompatiblePhrases, strIncludes (jsToLower s) p = true) →
          check_license_text (some s) = false) := by
  refine ⟨fun a b h => by rw [h], fun s => ?_, fun s hp => ?_⟩
  · simp only [check_license_text, Option.map_some', jsToLower_idem]
  · obtain ⟨p, hmem, hincl⟩ := hp
    have hC : incompatiblePhrases.any
        (fun phrase => optIncludes (some (jsToLower s)) phrase) = true := by
      rw [List.any_eq_true]
      exact ⟨p, hmem, hincl⟩
    simp only [check_license_text, Option.map_some', hC, Bool.not_true,
      Bool.and_false]

/-- Witness for C7 at a concrete text containing both a compatible phrase
and a restrictive phrase in mixed case. -/
theorem check_license_text_pure_ci_restrictive_witness :
    (∃ p ∈ incompatiblePhrases,
        strIncludes (jsToLower "MIT License, PROPRIETARY build") p = true)
    ∧ check_license_text (some "MIT License, PROPRIETARY build") = false :=
  ⟨⟨"proprietary", by decide, by decide⟩,
    check_license_text_pure_ci_restrictive.2.2 "MIT License, PROPRIETARY build"
      ⟨"proprietary", by decide, by decide⟩⟩

/-- C2 counterexample: for a successful response with licenseInfo name
"Other", spdxId "MIT" and LICENSE text "proprietary", the classifier
rejects the text, so the claimed three-case policy scores 0, but the code
falls through to the allow-list check and scores 1. -/
theorem license_metric_other_fallthrough_cex :
    calculate_license_metric
        ⟨some ⟨"Other", some "MIT"⟩, some "proprietary", none⟩ = 1
    ∧ license_score_claimed
        ⟨some ⟨"Other", some "MIT"⟩, some "proprietary", none⟩ = 0 := by
  constructor <;> decide

/-- C2 amended: on a successful license query response, score 0 when
licenseInfo or its spdxId is missing; otherwise the score is 0 or 1, and
it is 1 exactly when either the name is the "Other" sentinel with truthy
LICENSE text accepted by the classifier, or (fall-through, in particular
whenever that first condition fails) the spdxId is in the fixed
LGPL-compatible allow-list; in particular spdxId "MIT" always scores 1. -/
theorem license_metric_policy (resp : LicenseQueryResponse) :
    (resp.licenseInfo = none → calculate_license_metric resp = 0)
    ∧ (∀ info, resp.licenseInfo = some info → info.spdxId = none →
        calculate_license_metric resp = 0)
    ∧ (∀ info lid, resp.licenseInfo = some info → info.spdxId = some lid →
        (calculate_license_metric resp = 0 ∨ calculate_license_metric resp = 1)
        ∧ (calculate_license_metric resp = 1 ↔
            (info.name = "Other"
              ∧ jsStrTruthy
                  (jsOrString resp.mainLicenseText resp.masterLicenseText) = true
              ∧ check_license_text
                  (jsOrString resp.mainLicenseText resp.masterLicenseText) = true)
            ∨ lgplCompatibleSpdxIds.contains lid = true))
    ∧ (∀ info, resp.licenseInfo = some info → info.spdxId = some "MIT" →
        calculate_license_metric resp = 1) := by
  refine ⟨fun h => by simp [calculate_license_metric, h],
    fun info h hs => by simp [calculate_license_metric, h, hs], ?_, ?_⟩
  · intro info lid h hs
    simp only [calculate_license_metric, h, hs]
    set t := jsOrString resp.mainLicenseText resp.masterLicenseText with ht
    by_cases h1 : (info.name == "Other" && jsStrTruthy t
        && check_license_text t) = true
    · rw [if_pos h1]
      simp only [Bool.and_eq_true, beq_iff_eq] at h1
      exact ⟨Or.inr rfl, by
        simp only [true_iff]
        exact Or.inl ⟨h1.1.1, h1.1.2, h1.2⟩⟩
    · rw [if_neg h1]
      by_cases h2 : lgplCompatibleSpdxIds.contains lid = true
      · rw [if_pos h2]
        exact ⟨Or.inr rfl, by simp only [true_iff]; exact Or.inr h2⟩
      · rw [if_neg h2]
        refine ⟨Or.inl rfl, ?_⟩
        constructor
        · intro h0
          exact absurd h0 (by norm_num)
        · rintro (⟨hn, htr, hc⟩ | hl)
          · exact absurd (by simp [hn, htr, hc] : (info.name == "Other"
              && jsStrTruthy t && check_license_text t) = true) h1
          · exact absurd hl h2
  · intro info h hs
    have h3 : lgplCompatibleSpdxIds.contains "MIT" = true := by decide
    by_cases h1 : (info.name == "Other"
        && jsStrTruthy (jsOrString resp.mainLicenseText resp.masterLicenseText)
        && check_license_text
            (jsOrString resp.mainLicenseText resp.masterLicenseText)) = true
    · simp only [calculate_license_metric, h, hs]
      rw [if_pos h1]
    · simp only [calculate_license_metric, h, hs]
      rw [if_neg h1, if_pos h3]

/-- Witness for C2 at a concrete response with spdxId "MIT" and a name
that is not the "Other" sentinel. -/
theorem license_metric_policy_witness :
    (LicenseQueryResponse.licenseInfo ⟨some ⟨"MIT License", some "MIT"⟩, none, none⟩
        = some ⟨"MIT License", some "MIT"⟩)
    ∧ (RepoLicenseInfo.spdxId ⟨"MIT License", some "MIT"⟩ = some "MIT")
    ∧ calculate_license_metric ⟨some ⟨"MIT License", some "MIT"⟩, none, none⟩ = 1 :=
  ⟨rfl, rfl,
    (license_metric_policy ⟨some ⟨"MIT License", some "MIT"⟩, none, none⟩).2.2.2
      ⟨"MIT License", some "MIT"⟩ rfl rfl⟩

/-- C9: on undefined license text and on the empty string the classifier
returns false, so absence of LICENSE text never yields a compatible
classification. -/
theorem check_license_text_absent_false :
    check_license_text none = false ∧ check_license_text (some "") = false := by
  constructor <;> decide
theorem ratio_expr_bounds (a b : Nat) :
    0 ≤ (if ((a : ℚ) + (b : ℚ)) = 0 then 0
          else (b : ℚ) / ((a : ℚ) + (b : ℚ)))
    ∧ (if ((a : ℚ) + (b : ℚ)) = 0 then 0
          else (b : ℚ) / ((a : ℚ) + (b : ℚ))) ≤ 1 := by
  by_cases h : ((a : ℚ) + (b : ℚ)) = 0
  · rw [if_pos h]
    norm_num
  · rw [if_neg h]
    have hpos : 0 < (a : ℚ) + (b : ℚ) :=
      lt_of_le_of_ne (by positivity) (Ne.symm h)
    constructor
    · positivity
    · rw [div_le_one hpos]
      exact le_add_of_nonneg_left (by positivity)

theorem issueRatio_bounds (c : CorrectnessCounts) :
    0 ≤ issueRatio c ∧ issueRatio c ≤ 1 := by
  unfold issueRatio
  exact ratio_expr_bounds c.openIssues c.closedIssues

theorem prRatio_bounds (c : CorrectnessCounts) :
    0 ≤ prRatio c ∧ prRatio c ≤ 1 := by
  unfold prRatio
  exact ratio_expr_bounds c.openPullRequests c.releases

theorem recentCommitRatio_bounds (c : CorrectnessCounts) :
    0 ≤ recentCommitRatio c ∧ recentCommitRatio c ≤ 1 := by
  unfold recentCommitRatio
  constructor
  · exact le_min (by positivity) (by norm_num)
  · exact min_le_right _ _

theorem toFixed3_nonneg {x : ℚ} (hx : 0 ≤ x) : 0 ≤ toFixed3 x := by
  unfold toFixed3
  have h0 : (0 : ℤ) ≤ ⌊x * 1000 + 1 / 2⌋ := by
    rw [Int.le_floor]
    push_cast
    nlinarith
  exact div_nonneg (by exact_mod_cast h0) (by norm_num)

theorem toFixed3_le_one {x : ℚ} (hx : x ≤ 1) : toFixed3 x ≤ 1 := by
  unfold toFixed3
  have h1 : ⌊x * 1000 + 1 / 2⌋ ≤ 1000 := by
    have hlt : x * 1000 + 1 / 2 < ((1001 : ℤ) : ℚ) := by
      push_cast
      nlinarith
    have := Int.floor_lt.mpr hlt
    omega
  rw [div_le_one (by norm_num)]
  exact_mod_cast le_trans (Int.cast_le.mpr h1) (by norm_num)

theorem correctness_score_bounds (c : CorrectnessCounts) :
    0 ≤ correctness_score c ∧ correctness_score c ≤ 1 := by
  have hi := issueRatio_bounds c
  have hp := prRatio_bounds c
  have hr := recentCommitRatio_bounds c
  unfold correctness_score
  constructor
  · exact toFixed3_nonneg (le_max_left 0 _)
  · apply toFixed3_le_one
    apply max_le (by norm_num)
    linarith [hi.1, hi.2, hp.1, hp.2, hr.1, hr.2]

/-- C1: on a faulting transport query the catch block of the Correctness
calculator returns an object whose populated keys are licenseScore and
license_latency (both 0); the correctnessScore and correctness_latency
fields the claim requires are absent (undefined), so the record the
pipeline driver destructures and emits does not carry correctnessScore =
0 and correctness_latency = 0. -/
theorem correctness_fault_returns_license_fields :
    (calculate_correctness_metric (Except.error ()) 0).correctnessScore = none
    ∧ (calculate_correctness_metric (Except.error ()) 0).correctness_latency = none
    ∧ (calculate_correctness_metric (Except.error ()) 0).licenseScore = some 0
    ∧ (calculate_correctness_metric (Except.error ()) 0).license_latency = some 0
    ∧ (calculate_correctness_metric (Except.error ()) 0).correctnessScore ≠ some 0 :=
  ⟨rfl, rfl, rfl, rfl, by decide⟩

/-- C4: on a successful query with nonnegative integer counts, the
correctness score equals the 3-decimal rounding of
clamp((issueRatio + prRatio + recentCommitRatio) / 3, 0, 1), and on the
concrete scenario (10 closed issues, 0 open, 5 releases, 0 open PRs, 15
recent commits) it is 0.833. -/
theorem correctness_score_eq_clamped_mean (c : CorrectnessCounts) :
    correctness_score c =
      toFixed3 (clamp01 ((issueRatio c + prRatio c + recentCommitRatio c) / 3))
    ∧ correctness_score ⟨0, 10, 0, 5, 15⟩ = 833 / 1000 := by
  constructor
  · have hi := issueRatio_bounds c
    have hp := prRatio_bounds c
    have hr := recentCommitRatio_bounds c
    unfold correctness_score clamp01
    have hle : (issueRatio c + prRatio c + recentCommitRatio c) / 3 ≤ 1 := by
      linarith [hi.2, hp.2, hr.2]
    rw [min_eq_left hle]
  · unfold correctness_score issueRatio prRatio recentCommitRatio toFixed3
    norm_num

/-- Witness for C4 (the universally quantified equation evaluated at the
scenario counts). -/
theorem correctness_score_eq_clamped_mean_witness :
    correctness_score ⟨1, 1, 1, 1, 1⟩ =
      toFixed3 (clamp01 ((issueRatio ⟨1, 1, 1, 1, 1⟩ + prRatio ⟨1, 1, 1, 1, 1⟩
        + recentCommitRatio ⟨1, 1, 1, 1, 1⟩) / 3)) :=
  (correctness_score_eq_clamped_mean ⟨1, 1, 1, 1, 1⟩).1

/-- C6: for all nonnegative integer counts, each derived ratio and the
resulting score lie in [0,1]; a zero denominator makes the corresponding
ratio exactly 0 (the embedding is over ℚ, where no NaN or infinity value
exists to propagate). -/
theorem correctness_ratios_and_score_in_unit :
    ∀ c : CorrectnessCounts,
    (0 ≤ issueRatio c ∧ issueRatio c ≤ 1)
    ∧ (0 ≤ prRatio c ∧ prRatio c ≤ 1)
    ∧ (0 ≤ recentCommitRatio c ∧ recentCommitRatio c ≤ 1)
    ∧ (0 ≤ correctness_score c ∧ correctness_score c ≤ 1)
    ∧ (c.openIssues + c.closedIssues = 0 → issueRatio c = 0)
    ∧ (c.openPullRequests + c.releases = 0 → prRatio c = 0) := by
  intro c
  refine ⟨issueRatio_bounds c, prRatio_bounds c, recentCommitRatio_bounds c,
    correctness_score_bounds c, ?_, ?_⟩
  · intro h
    have ha : c.openIssues = 0 := by omega
    have hb : c.closedIssues = 0 := by omega
    unfold issueRatio
    rw [ha, hb]
    norm_num
  · intro h
    have ha : c.openPullRequests = 0 := by omega
    have hb : c.releases = 0 := by omega
    unfold prRatio
    rw [ha, hb]
    norm_num

/-- Witness for C6 at the all-zero counts, where both denominators are 0. -/
theorem correctness_ratios_and_score_in_unit_witness :
    (CorrectnessCounts.openIssues ⟨0, 0, 0, 0, 0⟩
        + CorrectnessCounts.closedIssues ⟨0, 0, 0, 0, 0⟩ = 0)
    ∧ issueRatio ⟨0, 0, 0, 0, 0⟩ = 0
    ∧ prRatio ⟨0, 0, 0, 0, 0⟩ = 0 :=
  ⟨rfl, (correctness_ratios_and_score_in_unit ⟨0, 0, 0, 0, 0⟩).2.2.2.2.1 rfl,
    (correctness_ratios_and_score_in_unit ⟨0, 0, 0, 0, 0⟩).2.2.2.2.2 rfl⟩

/-- C3: over pairs of averages, each a nonnegative finite number of
milliseconds or the infinity sentinel, the 7-day (604800000 ms)
thresholding maps (both below, only PR below, only issue below, neither
below) to (1, 0.7, 0.7, 0.3); in particular when nothing was resolved
both averages are the infinity sentinel and the score is 0.3. -/
theorem responsiveness_threshold_cases (avgPr avgIssue : AvgTime)
    (hPr : AvgTime.isNonneg avgPr = true)
    (hIss : AvgTime.isNonneg avgIssue = true) :
    maxAcceptableResponseTime = 604800000
    ∧ (avgBelow avgPr maxAcceptableResponseTime = true →
        avgBelow avgIssue maxAcceptableResponseTime = true →
        responsiveness_threshold_score avgPr avgIssue = 1)
    ∧ (avgBelow avgPr maxAcceptableResponseTime = true →
        avgBelow avgIssue maxAcceptableResponseTime = false →
        responsiveness_threshold_score avgPr avgIssue = 0.7)
    ∧ (avgBelow avgPr maxAcceptableResponseTime = false →
        avgBelow avgIssue maxAcceptableResponseTime = true →
        responsiveness_threshold_score avgPr avgIssue = 0.7)
    ∧ (avgBelow avgPr maxAcceptableResponseTime = false →
        avgBelow avgIssue maxAcceptableResponseTime = false →
        responsiveness_threshold_score avgPr avgIssue = 0.3)
    ∧ (∀ (prs : List PullRequestNode) (issues : List IssueNode),
        (∀ pr ∈ prs, pr.closedAt = none ∧ pr.mergedAt = none) →
        (∀ i ∈ issues, i.closedAt = none) →
        avgPrResponseTime prs = AvgTime.infinite
        ∧ avgIssueResponseTime issues = AvgTime.infinite
        ∧ calculate_responsiveness_metric prs issues = 0.3) := by
  refine ⟨by unfold maxAcceptableResponseTime; norm_num,
    fun h1 h2 => by simp [responsiveness_threshold_score, h1, h2],
    fun h1 h2 => by simp [responsiveness_threshold_score, h1, h2],
    fun h1 h2 => by simp [responsiveness_threshold_score, h1, h2],
    fun h1 h2 => by simp [responsiveness_threshold_score, h1, h2],
    ?_⟩
  intro prs issues hprs hiss
  have hp : avgPrResponseTime prs = AvgTime.infinite := by
    unfold avgPrResponseTime
    have hfil : prs.filter prResolved = [] := by
      rw [List.filter_eq_nil_iff]
      intro pr hmem
      obtain ⟨hc, hm⟩ := hprs pr hmem
      simp [prResolved, hc, hm]
    simp [hfil]
  have hi : avgIssueResponseTime issues = AvgTime.infinite := by
    unfold avgIssueResponseTime
    have hfil : issues.filter issueResolved = [] := by
      rw [List.filter_eq_nil_iff]
      intro i hmem
      simp [issueResolved, hiss i hmem]
    simp [hfil]
  refine ⟨hp, hi, ?_⟩
  unfold calculate_responsiveness_metric
  rw [hp, hi]
  simp [responsiveness_threshold_score, avgBelow]

/-- Witness for C3 with one average a nonnegative finite value below the
threshold and the other the infinity sentinel. -/
theorem responsiveness_threshold_cases_witness :
    AvgTime.isNonneg (AvgTime.finite 0) = true
    ∧ AvgTime.isNonneg AvgTime.infinite = true
    ∧ avgBelow (AvgTime.finite 0) maxAcceptableResponseTime = true
    ∧ avgBelow AvgTime.infinite maxAcceptableResponseTime = false
    ∧ responsiveness_threshold_score (AvgTime.finite 0) AvgTime.infinite = 0.7 :=
  ⟨by decide, rfl, by norm_num [avgBelow, maxAcceptableResponseTime], rfl,
    (responsiveness_threshold_cases (AvgTime.finite 0) AvgTime.infinite
        (by decide) rfl).2.2.1
      (by norm_num [avgBelow, maxAcceptableResponseTime]) rfl⟩

/-- C5 counterexample: when the checkout (clone) step itself fails there
is no try/finally around it, so the removal of the temporary directory is
never attempted and the fault escapes the calculator instead of a
MetricResult being returned. -/
theorem rampup_cleanup_not_attempted_on_clone_fault :
    (calculate_rampup_metric false true 0).cleanupAttempted = false
    ∧ (calculate_rampup_metric false true 0).result = Except.error () :=
  ⟨rfl, rfl⟩

/-- C5 amended: whenever the checkout succeeds, the Ramp-up calculator
attempts removal of its temporary directory, and a cleanup failure is
only logged: for either cleanup outcome the returned MetricResult is the
same fixed record (score 0 with the measured latency) and no fault
escapes. -/
theorem rampup_cleanup_on_success (rmOk : Bool) (latency : ℚ) :
    (calculate_rampup_metric true rmOk latency).cleanupAttempted = true
    ∧ (calculate_rampup_metric true rmOk latency).result = Except.ok (0, latency)
    ∧ (calculate_rampup_metric true rmOk latency).result
        = (calculate_rampup_metric true true latency).result :=
  ⟨rfl, rfl, rfl⟩

/-- C8: the aggregator is pure 0.25-weighted arithmetic: it maps
(1,1,1,1) to 1, (0,0,0,0) to 0, (1,0,1,0) to 0.5, and any four inputs
each in [0,1] into [0,1]. -/
theorem net_score_weighted_mean :
    calculate_net_score 1 1 1 1 = 1
    ∧ calculate_net_score 0 0 0 0 = 0
    ∧ calculate_net_score 1 0 1 0 = 0.5
    ∧ ∀ a b c d : ℚ, 0 ≤ a → a ≤ 1 → 0 ≤ b → b ≤ 1 → 0 ≤ c → c ≤ 1 →
        0 ≤ d → d ≤ 1 →
        0 ≤ calculate_net_score a b c d ∧ calculate_net_score a b c d ≤ 1 := by
  refine ⟨by norm_num [calculate_net_score], by norm_num [calculate_net_score],
    by norm_num [calculate_net_score], ?_⟩
  intro a b c d ha0 ha1 hb0 hb1 hc0 hc1 hd0 hd1
  unfold calculate_net_score
  constructor <;> nlinarith

/-- Witness for C8 at sub-scores (1/2, 1/2, 1/2, 1/2). -/
theorem net_score_weighted_mean_witness :
    ((0 : ℚ) ≤ 1 / 2 ∧ (1 / 2 : ℚ) ≤ 1)
    ∧ 0 ≤ calculate_net_score (1 / 2) (1 / 2) (1 / 2) (1 / 2)
    ∧ calculate_net_score (1 / 2) (1 / 2) (1 / 2) (1 / 2) ≤ 1 :=
  ⟨⟨by norm_num, by norm_num⟩,
    (net_score_weighted_mean.2.2.2 (1 / 2) (1 / 2) (1 / 2) (1 / 2)
      (by norm_num) (by norm_num) (by norm_num) (by norm_num)
      (by norm_num) (by norm_num) (by norm_num) (by norm_num)).1,
    (net_score_weighted_mean.2.2.2 (1 / 2) (1 / 2) (1 / 2) (1 / 2)
      (by norm_num) (by norm_num) (by norm_num) (by norm_num)
      (by norm_num) (by norm_num) (by norm_num) (by norm_num)).2⟩

/-- C10: whenever its checkout succeeds the Ramp-up calculator returns
the fixed score 0 regardless of the repository contents (the cleanup
outcome is the only other varying input), so if ramp-up were included in
the 0.25-weighted aggregation the net score could not exceed 0.75 for
sub-scores in [0,1]. -/
theorem rampup_zero_caps_net_score (rmOk : Bool) (latency : ℚ)
    (l c r : ℚ) (hl0 : 0 ≤ l) (hl1 : l ≤ 1) (hc0 : 0 ≤ c) (hc1 : c ≤ 1)
    (hr0 : 0 ≤ r) (hr1 : r ≤ 1) :
    (calculate_rampup_metric true rmOk latency).result = Except.ok (0, latency)
    ∧ calculate_net_score l 0 c r ≤ 0.75 := by
  refine ⟨rfl, ?_⟩
  unfold calculate_net_score
  nlinarith

/-- Witness for C10 at the maximal remaining sub-scores (1, 1, 1), where
the capped net score attains exactly 0.75. -/
theorem rampup_zero_caps_net_score_witness :
    ((0 : ℚ) ≤ 1 ∧ (1 : ℚ) ≤ 1)
    ∧ calculate_net_score 1 0 1 1 ≤ 0.75 :=
  ⟨⟨by norm_num, by norm_num⟩,
    (rampup_zero_caps_net_score true 0 1 1 1 (by norm_num) (by norm_num)
      (by norm_num) (by norm_num) (by norm_num) (by norm_num)).2⟩
